import Mathlib

/-!
Verification of the publication-scheduling core of the zhihupiliangfa
backend: the task state machine, retry/backoff policy, rate limiter and
event bus, shallowly embedded from
`backend/app/core/task_scheduler.py`, `backend/app/api/tasks.py`,
`backend/app/api/events.py` and `backend/app/automation/anti_detect.py`.

Modelling conventions:
* wall-clock instants and durations are rationals measured in seconds;
  the hour-of-day and local-midnight decompositions of `datetime.now()`
  are supplied as explicit fields of the environment;
* `random.uniform(a, b)` draws are passed in as parameters constrained
  by `a ≤ j ∧ j ≤ b` hypotheses;
* database sessions disappear: a task row is a `Task` record and each
  `commit` of a status is recorded in an explicit trace.
-/

namespace Zhihu

/-- Task status, `backend/app/models/task.py` (`pending / running /
success / failed / cancelled`). -/
inductive Status where
  | pending
  | running
  | success
  | failed
  | cancelled
  deriving DecidableEq, Repr

/-- A row of `publish_tasks` (`PublishTask` in
`backend/app/models/task.py`), restricted to the fields the scheduler
reads or writes.  `updated_at` is NOT a mapped column of the model: the
scheduler's assignments to it create a transient per-instance Python
attribute that is never persisted, so `updatedAt = none` models an
instance on which the attribute is absent — in particular every row
freshly loaded by a new session — and a Python read of the absent
attribute raises `AttributeError`. -/
structure Task where
  id : ℕ
  articleId : ℕ
  accountId : ℕ
  status : Status
  scheduledAt : Option ℚ
  retryCount : ℕ
  errorMessage : Option String
  createdAt : ℚ
  updatedAt : Option ℚ
  deriving DecidableEq, Repr

/-- A row of `publish_records` (`PublishRecord`), the append-only
per-execution history. -/
structure PublishRecord where
  taskId : ℕ
  articleId : ℕ
  accountId : ℕ
  publishStatus : String
  zhihuArticleUrl : Option String
  screenshotPath : Option String
  startedAt : Option ℚ
  finishedAt : Option ℚ
  deriving DecidableEq, Repr

/-- An event-bus message, restricted to the payload fields the claims
mention (`type`, `status`, `retry_count`). -/
structure Event where
  etype : String
  status : Option String
  retryCount : Option ℕ
  deriving DecidableEq, Repr

/-- Minimal view of an `Article` row: the scheduler only reads identity
and flips `status` to `published` on success. -/
structure Article where
  id : ℕ
  status : String
  deriving DecidableEq, Repr

/-- Minimal view of an `Account` row: the scheduler reads `is_active`
and the rate limiter reads `daily_limit` (nullable column). -/
structure Account where
  id : ℕ
  isActive : Bool
  dailyLimit : Option ℕ
  deriving DecidableEq, Repr

/-! ### Retry backoff constants, `task_scheduler.py` lines 31-33 -/

def RETRY_BASE_DELAY_SECONDS : ℚ := 60
def RETRY_MAX_DELAY_SECONDS : ℚ := 30 * 60
def RETRY_JITTER_MAX_SECONDS : ℚ := 30

/-- `TaskScheduler._calculate_next_retry_time`: exponential backoff with
cap and additive jitter, `jitter = random.uniform(0, 30)` passed in as a
parameter.  `delay = min(60 * 2^retry_count, 1800)`;
result `= last_failure_time + delay + jitter`. -/
def calculateNextRetryTime (retryCount : ℕ) (lastFailureTime : ℚ)
    (jitter : ℚ) : ℚ :=
  lastFailureTime
    + (min (RETRY_BASE_DELAY_SECONDS * 2 ^ retryCount) RETRY_MAX_DELAY_SECONDS
        + jitter)

/-- The status strings as stored in the DB / interpolated into API
error messages. -/
def statusString : Status → String
  | .pending => "pending"
  | .running => "running"
  | .success => "success"
  | .failed => "failed"
  | .cancelled => "cancelled"

/-! ### `TaskScheduler._execute_task` -/

/-- Result of the external `zhihu_publisher.publish_article` call:
a result dict with `success=True`, one with `success=False`, or a raised
exception. -/
inductive PubOutcome where
  | ok (articleUrl : Option String) (screenshotPath : Option String)
  | fail (message : Option String) (screenshotPath : Option String)
  | exn (message : String)
  deriving DecidableEq, Repr

/-- Ambient inputs of one `_execute_task` run: the clock (instant, its
hour-of-day, local midnight), the active-window settings and the
publisher outcome. -/
structure ExecEnv where
  now : ℚ
  nowHour : ℕ
  todayStart : ℚ
  activeStart : ℕ
  activeEnd : ℕ
  pub : PubOutcome
  deriving DecidableEq, Repr

/-- The slice of database state `_execute_task` touches, plus the
emitted events and the successive statuses committed for the task row
(`trace`). -/
structure ExecState where
  task : Option Task
  article : Option Article
  account : Option Account
  records : List PublishRecord
  events : List Event
  trace : List Status
  deriving DecidableEq, Repr

/-- Lines 354-358: `now.replace(hour=ACTIVE_TIME_START, minute=0,
second=0)`, pushed to the next day when not in the future (the
microsecond field is below this model's granularity). -/
def nextActiveTime (env : ExecEnv) : ℚ :=
  let na := env.todayStart + (env.activeStart : ℚ) * 3600
  if na ≤ env.now then na + 86400 else na

/-- `TaskScheduler._execute_task` (lines 291-475), one call.  Commits of
the task's status are appended to `trace` in order. -/
def executeTask (env : ExecEnv) (s : ExecState) : ExecState :=
  match s.task with
  | none => s
  | some task0 =>
    if task0.status ≠ Status.pending then s
    else
      let task1 := { task0 with
        status := Status.running
        updatedAt := some env.now }
      let s1 := { s with
        task := some task1
        trace := s.trace ++ [Status.running] }
      match s.article with
      | none =>
        let task2 := { task1 with
          status := Status.failed
          errorMessage := some "文章不存在"
          updatedAt := some env.now }
        { s1 with
          task := some task2
          trace := s1.trace ++ [Status.failed] }
      | some article =>
        match s.account with
        | none =>
          let task2 := { task1 with
            status := Status.failed
            errorMessage := some "账号不存在"
            updatedAt := some env.now }
          { s1 with
            task := some task2
            trace := s1.trace ++ [Status.failed] }
        | some account =>
          if !account.isActive then
            let task2 := { task1 with
              status := Status.failed
              errorMessage := some "账号已禁用"
              updatedAt := some env.now }
            { s1 with
              task := some task2
              trace := s1.trace ++ [Status.failed] }
          else if ¬(env.activeStart ≤ env.nowHour ∧ env.nowHour < env.activeEnd) then
            let task2 := { task1 with
              status := Status.pending
              scheduledAt := some (nextActiveTime env) }
            { s1 with
              task := some task2
              trace := s1.trace ++ [Status.pending] }
          else
            let record0 : PublishRecord := {
              taskId := task1.id
              articleId := task1.articleId
              accountId := task1.accountId
              publishStatus := "running"
              zhihuArticleUrl := none
              screenshotPath := none
              startedAt := some env.now
              finishedAt := none }
            match env.pub with
            | .ok url shot =>
              let task2 := { task1 with
                status := Status.success
                updatedAt := some env.now }
              { s1 with
                task := some task2
                article := some { article with status := "published" }
                records := s1.records ++ [{ record0 with
                  publishStatus := "success"
                  zhihuArticleUrl := url
                  screenshotPath := shot
                  finishedAt := some env.now }]
                events := s1.events ++ [⟨"task_update", some "success", none⟩]
                trace := s1.trace ++ [Status.success] }
            | .fail msg shot =>
              let task2 := { task1 with
                status := Status.failed
                retryCount := task1.retryCount + 1
                errorMessage := some (msg.getD "未知错误")
                updatedAt := some env.now }
              { s1 with
                task := some task2
                records := s1.records ++ [{ record0 with
                  publishStatus := "failed"
                  screenshotPath := shot
                  finishedAt := some env.now }]
                events := s1.events ++
                  [⟨"task_update", some "failed", some task2.retryCount⟩]
                trace := s1.trace ++ [Status.failed] }
            | .exn m =>
              let task2 := { task1 with
                status := Status.failed
                retryCount := task1.retryCount + 1
                errorMessage := some m
                updatedAt := some env.now }
              { s1 with
                task := some task2
                records := s1.records ++ [{ record0 with
                  publishStatus := "failed"
                  finishedAt := some env.now }]
                events := s1.events ++
                  [⟨"task_update", some "failed", some task2.retryCount⟩]
                trace := s1.trace ++ [Status.failed] }

/-! ### Task creation (`add_immediate_task` / `add_scheduled_task` /
`add_batch_tasks`): the `PublishTask(...)` constructor calls, with the
column defaults of `backend/app/models/task.py`. -/

/-- A freshly inserted `PublishTask` row: `status="pending"`,
`retry_count=0`, `error_message=None`; `updated_at` is not a column of
the model, so a fresh row has none. -/
def createTask (id articleId accountId : ℕ) (scheduledAt : Option ℚ)
    (createdAt : ℚ) : Task :=
  { id := id
    articleId := articleId
    accountId := accountId
    status := Status.pending
    scheduledAt := scheduledAt
    retryCount := 0
    errorMessage := none
    createdAt := createdAt
    updatedAt := none }

/-- `get_random_jitter_minutes(max_minutes=5)` draw passed in as
`jitterMinutes`; `add_scheduled_task` lines 163-164:
`jittered_time = scheduled_at + timedelta(minutes=jitter_minutes)`
(seconds). -/
def addScheduledTaskTime (scheduledAt : ℚ) (jitterMinutes : ℚ) : ℚ :=
  scheduledAt + jitterMinutes * 60

/-- `add_batch_tasks` lines 227-232: item `idx` gets
`base_time + timedelta(minutes=interval_minutes * idx + jitter_minutes)`
with an independent jitter draw per item. -/
def batchTaskScheduledAt (baseTime : ℚ) (intervalMinutes : ℚ) (idx : ℕ)
    (jitterMinutes : ℚ) : ℚ :=
  baseTime + (intervalMinutes * (idx : ℚ) + jitterMinutes) * 60

/-! ### Cancellation, `api/tasks.py cancel_task` +
`TaskScheduler.cancel_task` -/

/-- The typed errors the task API raises (`HTTPException` with status
404 respectively 400). -/
inductive ApiError where
  | notFound (detail : String)
  | invalidState (detail : String)
  deriving DecidableEq, Repr

/-- The APScheduler job-id prefixes `TaskScheduler.cancel_task`
tries to remove (line 283). -/
def JOB_PREFIXES : List String :=
  ["immediate_task_", "scheduled_task_", "batch_task_", "delayed_task_",
   "retry_task_"]

/-- `TaskScheduler.cancel_task` (lines 275-289): best-effort removal of
every job whose id is one of the five prefixes followed by the task id;
missing jobs are ignored. -/
def schedulerCancelTask (taskId : ℕ) (jobs : List String) : List String :=
  jobs.filter (fun j =>
    !(JOB_PREFIXES.map (fun p => p ++ toString taskId)).contains j)

/-- Outcome of a successful `DELETE /tasks/{task_id}`. -/
structure CancelOk where
  task : Task
  jobs : List String
  events : List Event
  deriving DecidableEq, Repr

/-- `api/tasks.py cancel_task` (lines 307-341): 404 when the task does
not exist, 400 unless `status == "pending"`; otherwise flip to
`cancelled`, set the fixed error message, touch `updated_at`, remove the
scheduler jobs and emit a `task_cancelled` event. -/
def cancelTask (now : ℚ) (task? : Option Task) (jobs : List String)
    (events : List Event) : Except ApiError CancelOk :=
  match task? with
  | none => .error (.notFound "任务不存在")
  | some task =>
    if task.status ≠ Status.pending then
      .error (.invalidState
        ("只能取消 pending 状态的任务，当前状态: " ++ statusString task.status))
    else
      let task' := { task with
        status := Status.cancelled
        errorMessage := some "用户手动取消"
        updatedAt := some now }
      .ok { task := task'
            jobs := schedulerCancelTask task.id jobs
            events := events ++ [⟨"task_cancelled", some "cancelled", none⟩] }

/-- `api/tasks.py update_task` (lines 352-377): only `pending` tasks may
be rescheduled; the status is never changed. -/
def updateTask (now : ℚ) (task? : Option Task) (newScheduledAt : Option ℚ) :
    Except ApiError Task :=
  match task? with
  | none => .error (.notFound "任务不存在")
  | some task =>
    if task.status ≠ Status.pending then
      .error (.invalidState
        ("只能更新 pending 状态的任务，当前状态: " ++ statusString task.status))
    else
      match newScheduledAt with
      | some t => .ok { task with scheduledAt := some t, updatedAt := some now }
      | none => .ok task

/-! ### Retry sweep, `TaskScheduler._retry_failed_tasks` -/

/-- One task's treatment by `_retry_failed_tasks` (lines 528-584): the
query selects `status == "failed" ∧ retry_count < MAX_RETRY_COUNT`; for
a selected task, line 551 evaluates `task.updated_at or task.created_at`.
Because `updated_at` is not a column, that read raises `AttributeError`
whenever the attribute is absent (`updatedAt = none`), which is the case
for every row the sweep's fresh session loads; when the attribute is
present it holds a datetime, which is truthy, so the `or created_at`
fallback is dead code.  On a present attribute the backoff base is its
value, the exponent `max(0, retry_count - 1)` (truncated subtraction on
ℕ), and the task is re-admitted to `pending` only past `next_retry_at`.
The Bool reports whether the task was re-admitted. -/
def retrySweepTask (maxRetryCount : ℕ) (now : ℚ) (jitter : ℚ) (t : Task) :
    Except String (Task × Bool) :=
  if t.status = Status.failed ∧ t.retryCount < maxRetryCount then
    match t.updatedAt with
    | none => .error "AttributeError: updated_at"
    | some lastFailureTime =>
      let effectiveRetry := t.retryCount - 1
      let nextRetryAt := calculateNextRetryTime effectiveRetry
        lastFailureTime jitter
      if now < nextRetryAt then .ok (t, false)
      else .ok ({ t with status := Status.pending, updatedAt := some now },
        true)
  else .ok (t, false)

/-- The whole sweep over the task table, with an independent jitter draw
per processed task (indexed by task id).  Tasks are processed in query
order; each re-admission is committed immediately and emits a
`task_update` event with status `pending`; the first uncaught
`AttributeError` aborts the sweep, leaving the remaining rows untouched.
Returns the resulting table, the emitted events, and the uncaught
exception if one was raised. -/
def retrySweep (maxRetryCount : ℕ) (now : ℚ) (jitters : ℕ → ℚ) :
    List Task → List Task × List Event × Option String
  | [] => ([], [], none)
  | t :: ts =>
    match retrySweepTask maxRetryCount now (jitters t.id) t with
    | .error e => (t :: ts, [], some e)
    | .ok (t', readmitted) =>
      let rest := retrySweep maxRetryCount now jitters ts
      (t' :: rest.1,
       (if readmitted then
          [⟨"task_update", some "pending", some t'.retryCount⟩]
        else []) ++ rest.2.1,
       rest.2.2)

/-! ### Rate limiter, `TaskScheduler._check_rate_limit` -/

/-- The rate-limit settings of `backend/app/config.py`. -/
structure RateLimitCfg where
  DAILY_PUBLISH_LIMIT : ℕ
  MIN_PUBLISH_INTERVAL : ℚ
  ACTIVE_TIME_START : ℕ
  ACTIVE_TIME_END : ℕ
  deriving DecidableEq, Repr

/-- The shipped defaults (`config.py` lines 94-97). -/
def defaultCfg : RateLimitCfg :=
  { DAILY_PUBLISH_LIMIT := 5
    MIN_PUBLISH_INTERVAL := 300
    ACTIVE_TIME_START := 8
    ACTIVE_TIME_END := 23 }

/-- Lines 641-648: `COUNT(*)` of this account's `success` tasks created
since local midnight. -/
def todaySuccessCount (tasks : List Task) (accountId : ℕ) (todayStart : ℚ) : ℕ :=
  (tasks.filter (fun t =>
    t.accountId == accountId && t.status == Status.success &&
      decide (todayStart ≤ t.createdAt))).length

/-- Lines 653-665: the `created_at` of this account's most recent task
in `{"success", "running"}` (`ORDER BY created_at DESC LIMIT 1`). -/
def lastPublishTime (tasks : List Task) (accountId : ℕ) : Option ℚ :=
  ((tasks.filter (fun t =>
      t.accountId == accountId &&
        (t.status == Status.success || t.status == Status.running))).map
    (fun t => t.createdAt)).max?

/-- `account.daily_limit or settings.DAILY_PUBLISH_LIMIT` (line 638):
Python `or` falls back both on `None` and on `0`. -/
def effectiveDailyLimit (account : Account) (cfg : RateLimitCfg) : ℕ :=
  match account.dailyLimit with
  | none => cfg.DAILY_PUBLISH_LIMIT
  | some d => if d = 0 then cfg.DAILY_PUBLISH_LIMIT else d

/-- `TaskScheduler._check_rate_limit` (lines 606-671): active-hours
window, then account existence, then daily quota, then minimum spacing;
returns `(allowed, reason)`.  `int(remaining.total_seconds())` is the
floor, as `remaining` is positive in that branch. -/
def checkRateLimit (cfg : RateLimitCfg) (now : ℚ) (nowHour : ℕ)
    (todayStart : ℚ) (account? : Option Account) (accountId : ℕ)
    (tasks : List Task) : Bool × String :=
  if ¬(cfg.ACTIVE_TIME_START ≤ nowHour ∧ nowHour < cfg.ACTIVE_TIME_END) then
    (false, "当前不在活跃时间窗口 (" ++ toString cfg.ACTIVE_TIME_START
      ++ ":00 - " ++ toString cfg.ACTIVE_TIME_END ++ ":00)")
  else
    match account? with
    | none => (false, "账号不存在")
    | some account =>
      if todaySuccessCount tasks accountId todayStart
          ≥ effectiveDailyLimit account cfg then
        (false, "今日已发布 "
          ++ toString (todaySuccessCount tasks accountId todayStart)
          ++ " 篇，达到上限 " ++ toString (effectiveDailyLimit account cfg))
      else
        match lastPublishTime tasks accountId with
        | some lastPublish =>
          if now - lastPublish < cfg.MIN_PUBLISH_INTERVAL then
            (false, "需要等待 "
              ++ toString ⌊cfg.MIN_PUBLISH_INTERVAL - (now - lastPublish)⌋
              ++ " 秒后才能发布")
          else (true, "OK")
        | none => (true, "OK")

/-! ### Event bus, `backend/app/api/events.py` -/

/-- Both subscription sites (`EventBus.subscribe` line 80 and
`_event_generator` line 126) create `asyncio.Queue(maxsize=256)`. -/
def QUEUE_MAXSIZE : ℕ := 256

/-- One subscriber: its bounded queue, oldest message first. -/
structure Subscriber where
  queue : List Event
  deriving DecidableEq, Repr

/-- `EventBus.subscribe`: a fresh subscriber starts with an empty
queue. -/
def subscribe (subscribers : List Subscriber) : List Subscriber :=
  subscribers ++ [{ queue := [] }]

/-- `EventBus.publish` (lines 39-66): `put_nowait` into every
subscriber queue — those at capacity raise `QueueFull` and are collected
as dead — then the dead queues are removed from the subscriber list.
Total function: no blocking, no escaping exception. -/
def eventBusPublish (message : Event) (subscribers : List Subscriber) :
    List Subscriber :=
  let delivered := subscribers.map (fun s =>
    if s.queue.length < QUEUE_MAXSIZE then
      ({ queue := s.queue ++ [message] }, false)
    else (s, true))
  (delivered.filter (fun p => !p.2)).map Prod.fst

/-! ## Theorems -/

/-- C4: for every `retryCount ≥ 0` and time `t`, with the jitter draw in
`[0, 30]`, `_calculate_next_retry_time(retryCount, t)` lies in
`[t + min(60 * 2^retryCount, 1800), t + min(60 * 2^retryCount, 1800) + 30]`
seconds; in particular in `[t+60, t+90]` for `retryCount = 0` and in
`[t+1800, t+1830]` for `retryCount = 10`. -/
theorem calculateNextRetryTime_bounds (retryCount : ℕ) (t jitter : ℚ)
    (hj0 : 0 ≤ jitter) (hj30 : jitter ≤ RETRY_JITTER_MAX_SECONDS) :
    (t + min (60 * 2 ^ retryCount) 1800
        ≤ calculateNextRetryTime retryCount t jitter
      ∧ calculateNextRetryTime retryCount t jitter
        ≤ t + min (60 * 2 ^ retryCount) 1800 + 30)
    ∧ (retryCount = 0 →
        t + 60 ≤ calculateNextRetryTime retryCount t jitter
          ∧ calculateNextRetryTime retryCount t jitter ≤ t + 90)
    ∧ (retryCount = 10 →
        t + 1800 ≤ calculateNextRetryTime retryCount t jitter
          ∧ calculateNextRetryTime retryCount t jitter ≤ t + 1830) := by
  unfold calculateNextRetryTime RETRY_BASE_DELAY_SECONDS
    RETRY_MAX_DELAY_SECONDS at *
  unfold RETRY_JITTER_MAX_SECONDS at hj30
  norm_num
  refine ⟨⟨by linarith, by linarith⟩, ?_, ?_⟩
  · rintro rfl
    norm_num
    constructor <;> linarith
  · rintro rfl
    norm_num
    constructor <;> linarith

/-- Closed witness for `calculateNextRetryTime_bounds` at
`retryCount = 0`, `t = 0`, `jitter = 7`. -/
theorem calculateNextRetryTime_bounds_witness :
    ((0:ℚ) + min (60 * 2 ^ (0:ℕ)) 1800 ≤ calculateNextRetryTime 0 0 7
      ∧ calculateNextRetryTime 0 0 7 ≤ (0:ℚ) + min (60 * 2 ^ (0:ℕ)) 1800 + 30)
    ∧ ((0:ℕ) = 0 →
        (0:ℚ) + 60 ≤ calculateNextRetryTime 0 0 7
          ∧ calculateNextRetryTime 0 0 7 ≤ (0:ℚ) + 90)
    ∧ ((0:ℕ) = 10 →
        (0:ℚ) + 1800 ≤ calculateNextRetryTime 0 0 7
          ∧ calculateNextRetryTime 0 0 7 ≤ (0:ℚ) + 1830) :=
  calculateNextRetryTime_bounds 0 0 7 (by norm_num)
    (by norm_num [RETRY_JITTER_MAX_SECONDS])

/-- C9: a scheduled (non-immediate) publication requested for time `T`
gets `scheduled_at = T + jitter` with the jitter draw in `[-5, +5]`
minutes, so a request 10 minutes in the future lands in
`[now+5min, now+15min]`; batch item `idx` gets
`t0 + intervalMinutes*idx` plus an independent such jitter. -/
theorem scheduled_and_batch_jitter (T now t0 intervalMinutes : ℚ) (idx : ℕ)
    (j ji : ℚ) (hj : -5 ≤ j ∧ j ≤ 5) (hji : -5 ≤ ji ∧ ji ≤ 5) :
    (addScheduledTaskTime T j = T + j * 60
      ∧ T - 5 * 60 ≤ addScheduledTaskTime T j
      ∧ addScheduledTaskTime T j ≤ T + 5 * 60)
    ∧ (T = now + 10 * 60 →
        now + 5 * 60 ≤ addScheduledTaskTime T j
          ∧ addScheduledTaskTime T j ≤ now + 15 * 60)
    ∧ (batchTaskScheduledAt t0 intervalMinutes idx ji
        = t0 + (intervalMinutes * (idx : ℚ) + ji) * 60
      ∧ t0 + intervalMinutes * (idx : ℚ) * 60 - 5 * 60
          ≤ batchTaskScheduledAt t0 intervalMinutes idx ji
      ∧ batchTaskScheduledAt t0 intervalMinutes idx ji
          ≤ t0 + intervalMinutes * (idx : ℚ) * 60 + 5 * 60) := by
  obtain ⟨hj1, hj2⟩ := hj
  obtain ⟨hji1, hji2⟩ := hji
  unfold addScheduledTaskTime batchTaskScheduledAt
  refine ⟨⟨rfl, by linarith, by linarith⟩, ?_, rfl, by nlinarith, by nlinarith⟩
  rintro rfl
  constructor <;> linarith

/-- Closed witness for `scheduled_and_batch_jitter` at
`T = 600`, `now = 0`, `t0 = 0`, `intervalMinutes = 10`, `idx = 2`,
`j = 3`, `ji = -2`. -/
theorem scheduled_and_batch_jitter_witness :
    (addScheduledTaskTime 600 3 = 600 + 3 * 60
      ∧ (600:ℚ) - 5 * 60 ≤ addScheduledTaskTime 600 3
      ∧ addScheduledTaskTime 600 3 ≤ 600 + 5 * 60)
    ∧ ((600:ℚ) = 0 + 10 * 60 →
        (0:ℚ) + 5 * 60 ≤ addScheduledTaskTime 600 3
          ∧ addScheduledTaskTime 600 3 ≤ 0 + 15 * 60)
    ∧ (batchTaskScheduledAt 0 10 2 (-2)
        = 0 + (10 * ((2:ℕ) : ℚ) + (-2)) * 60
      ∧ (0:ℚ) + 10 * ((2:ℕ) : ℚ) * 60 - 5 * 60
          ≤ batchTaskScheduledAt 0 10 2 (-2)
      ∧ batchTaskScheduledAt 0 10 2 (-2)
          ≤ 0 + 10 * ((2:ℕ) : ℚ) * 60 + 5 * 60) :=
  scheduled_and_batch_jitter 600 0 0 10 2 3 (-2)
    (by constructor <;> norm_num) (by constructor <;> norm_num)

/-- C8: event-bus publish non-blockingly delivers the message to every
subscriber whose queue has room (capacity `QUEUE_MAXSIZE = 256`) and
immediately drops every subscriber whose queue is full; as a total
function it neither blocks nor raises. -/
theorem eventBusPublish_spec (message : Event) (subscribers : List Subscriber) :
    eventBusPublish message subscribers =
      (subscribers.filter (fun s => s.queue.length < QUEUE_MAXSIZE)).map
        (fun s => { queue := s.queue ++ [message] })
    ∧ QUEUE_MAXSIZE = 256 := by
  refine ⟨?_, rfl⟩
  induction subscribers with
  | nil => rfl
  | cons s rest ih =>
    by_cases h : s.queue.length < QUEUE_MAXSIZE <;>
      simp [eventBusPublish, h, List.filter_cons] at ih ⊢ <;>
      exact ih

/-! ### Concrete sample data for witnesses and counterexamples -/

/-- A pending task as created by the scheduler. -/
def sampleTask : Task :=
  { id := 7
    articleId := 3
    accountId := 1
    status := Status.pending
    scheduledAt := none
    retryCount := 0
    errorMessage := none
    createdAt := 1000
    updatedAt := none }

/-- An active account with an explicit daily limit of 5. -/
def sampleAccount : Account :=
  { id := 1, isActive := true, dailyLimit := some 5 }

/-- A `success` task for account 1 created at time `c` (today when
`todayStart = 0 ≤ c`). -/
def successTaskAt (i : ℕ) (c : ℚ) : Task :=
  { id := i
    articleId := i
    accountId := 1
    status := Status.success
    scheduledAt := none
    retryCount := 0
    errorMessage := none
    createdAt := c
    updatedAt := none }

/-- C7: `DELETE /tasks/{task_id}` succeeds iff the task exists with
status `pending`; success flips the status to `cancelled` and removes
the pending trigger jobs; any other status yields the
invalid-state-transition error (HTTP 400) and, the handler being pure up
to that point, leaves the task unchanged; a missing task yields 404;
and no job id for the task survives `schedulerCancelTask`. -/
theorem cancelTask_spec (now : ℚ) (task? : Option Task) (jobs : List String)
    (events : List Event) :
    ((∃ r, cancelTask now task? jobs events = Except.ok r) ↔
       ∃ t, task? = some t ∧ t.status = Status.pending)
    ∧ (∀ t, task? = some t → t.status = Status.pending →
        cancelTask now task? jobs events = Except.ok
          { task := { t with
              status := Status.cancelled
              errorMessage := some "用户手动取消"
              updatedAt := some now }
            jobs := schedulerCancelTask t.id jobs
            events := events ++ [⟨"task_cancelled", some "cancelled", none⟩] })
    ∧ (∀ t, task? = some t → t.status ≠ Status.pending →
        cancelTask now task? jobs events = Except.error (ApiError.invalidState
          ("只能取消 pending 状态的任务，当前状态: " ++ statusString t.status)))
    ∧ (task? = none →
        cancelTask now task? jobs events
          = Except.error (ApiError.notFound "任务不存在"))
    ∧ (∀ taskId p, p ∈ JOB_PREFIXES →
        (p ++ toString taskId) ∉ schedulerCancelTask taskId jobs) := by
  refine ⟨?_, ?_, ?_, ?_, ?_⟩
  · cases task? with
    | none => simp [cancelTask]
    | some t =>
      by_cases h : t.status = Status.pending <;> simp [cancelTask, h]
  · rintro t rfl h
    simp [cancelTask, h]
  · rintro t rfl h
    simp [cancelTask, h]
  · rintro rfl
    simp [cancelTask]
  · intro taskId p hp
    simp only [schedulerCancelTask, List.mem_filter, Bool.not_eq_true',
      not_and]
    intro _
    have hm : (p ++ toString taskId)
        ∈ JOB_PREFIXES.map (fun q => q ++ toString taskId) :=
      List.mem_map_of_mem _ hp
    rw [← List.elem_iff] at hm
    simp [List.contains, hm]
    exact ⟨p, hp, rfl⟩

/-- Closed witness for `cancelTask_spec`: cancelling the concrete
pending `sampleTask` with one registered trigger job. -/
theorem cancelTask_spec_witness :
    cancelTask 2000 (some sampleTask) ["scheduled_task_7", "batch_task_9"] []
      = Except.ok
        { task := { sampleTask with
            status := Status.cancelled
            errorMessage := some "用户手动取消"
            updatedAt := some 2000 }
          jobs := schedulerCancelTask sampleTask.id
            ["scheduled_task_7", "batch_task_9"]
          events := [] ++ [⟨"task_cancelled", some "cancelled", none⟩] } :=
  (cancelTask_spec 2000 (some sampleTask) ["scheduled_task_7", "batch_task_9"]
    []).2.1 sampleTask rfl rfl

/-- C10: a successful cancellation of a pending task writes the fixed
string `"用户手动取消"` into `error_message` even though no failed
execution attempt occurred, in addition to setting the status to
`cancelled`. -/
theorem cancel_writes_manual_cancel_message (now : ℚ) (t : Task)
    (jobs : List String) (events : List Event)
    (h : t.status = Status.pending) :
    (cancelTask now (some t) jobs events).toOption.map
        (fun r => r.task.errorMessage) = some (some "用户手动取消")
    ∧ (cancelTask now (some t) jobs events).toOption.map
        (fun r => r.task.status) = some Status.cancelled := by
  simp [cancelTask, h]
  exact ⟨⟨_, rfl, rfl⟩, ⟨_, rfl, rfl⟩⟩

/-- Closed witness for `cancel_writes_manual_cancel_message` on the
concrete pending `sampleTask`. -/
theorem cancel_writes_manual_cancel_message_witness :
    (cancelTask 2000 (some sampleTask) [] []).toOption.map
        (fun r => r.task.errorMessage) = some (some "用户手动取消")
    ∧ (cancelTask 2000 (some sampleTask) [] []).toOption.map
        (fun r => r.task.status) = some Status.cancelled :=
  cancel_writes_manual_cancel_message 2000 sampleTask [] [] rfl

/-- A failed task exactly as the sweep's fresh session sees it: the row
comes from the database, where `updated_at` is not a column, so the
attribute is absent (`updatedAt = none`); `retry_count = 1` is below
`MAX_RETRY_COUNT = 3` and the row was created long before `now`. -/
def freshFailedTask : Task :=
  { id := 9
    articleId := 4
    accountId := 1
    status := Status.failed
    scheduledAt := none
    retryCount := 1
    errorMessage := some "未知错误"
    createdAt := 100
    updatedAt := none }

/-- Helper: a freshly loaded row (absent `updated_at` attribute) is
never re-admitted by the sweep — in the eligible case the line-551 read
raises `AttributeError` instead, and in the ineligible case the task is
returned unchanged. -/
theorem retrySweepTask_fresh (maxRetryCount : ℕ) (now jitter : ℚ)
    (t : Task) (hfresh : t.updatedAt = none) :
    (t.status = Status.failed → t.retryCount < maxRetryCount →
      retrySweepTask maxRetryCount now jitter t
        = Except.error "AttributeError: updated_at")
    ∧ (∀ (t' : Task) (re : Bool),
        retrySweepTask maxRetryCount now jitter t = Except.ok (t', re) →
        t' = t ∧ re = false) := by
  unfold retrySweepTask
  rw [hfresh]
  by_cases hg : t.status = Status.failed ∧ t.retryCount < maxRetryCount
  · rw [if_pos hg]
    exact ⟨fun _ _ => rfl, fun t' re h => Except.noConfusion h⟩
  · rw [if_neg hg]
    refine ⟨fun hf hrc => absurd ⟨hf, hrc⟩ hg, fun t' re h => ?_⟩
    injection h with h
    injection h with h1 h2
    exact ⟨h1.symm, h2.symm⟩

/-- C3: the retry-sweep re-admission policy the claim describes is the
intended behaviour, but the code cannot execute it: `updated_at` is not
a column of `publish_tasks`, so every failed task the sweep's fresh
session loads lacks the attribute, and the line-551 read
`task.updated_at or task.created_at` raises `AttributeError`; the sweep
aborts on its first selected task and never re-admits anything.
Evaluated at the concrete failing input `freshFailedTask` (failed,
`retry_count = 1 < 3`): the per-task step raises, and the whole sweep
over the one-row table returns it unchanged, emits no events and
records the uncaught exception. -/
theorem retrySweep_attributeError :
    freshFailedTask.status = Status.failed
    ∧ freshFailedTask.retryCount < 3
    ∧ freshFailedTask.updatedAt = none
    ∧ retrySweepTask 3 10000 7 freshFailedTask
        = Except.error "AttributeError: updated_at"
    ∧ retrySweep 3 10000 (fun _ => 7) [freshFailedTask]
        = ([freshFailedTask], [], some "AttributeError: updated_at") :=
  ⟨rfl, by decide, rfl, rfl, rfl⟩

/-- C5: the rate limiter allows publication iff the hour window, the
daily quota (strict `<` against the effective limit) and the
minimum-spacing gate all pass, in that order with short-circuit; each
denial carries the corresponding reason string. -/
theorem checkRateLimit_spec (cfg : RateLimitCfg) (now : ℚ) (nowHour : ℕ)
    (todayStart : ℚ) (account : Account) (accountId : ℕ)
    (tasks : List Task) :
    ((checkRateLimit cfg now nowHour todayStart (some account) accountId
        tasks).1 = true ↔
      ((cfg.ACTIVE_TIME_START ≤ nowHour ∧ nowHour < cfg.ACTIVE_TIME_END)
        ∧ todaySuccessCount tasks accountId todayStart
            < effectiveDailyLimit account cfg
        ∧ (∀ lp, lastPublishTime tasks accountId = some lp →
            cfg.MIN_PUBLISH_INTERVAL ≤ now - lp)))
    ∧ (¬(cfg.ACTIVE_TIME_START ≤ nowHour ∧ nowHour < cfg.ACTIVE_TIME_END) →
        checkRateLimit cfg now nowHour todayStart (some account) accountId tasks
          = (false, "当前不在活跃时间窗口 (" ++ toString cfg.ACTIVE_TIME_START
              ++ ":00 - " ++ toString cfg.ACTIVE_TIME_END ++ ":00)"))
    ∧ ((cfg.ACTIVE_TIME_START ≤ nowHour ∧ nowHour < cfg.ACTIVE_TIME_END) →
        effectiveDailyLimit account cfg
            ≤ todaySuccessCount tasks accountId todayStart →
        checkRateLimit cfg now nowHour todayStart (some account) accountId tasks
          = (false, "今日已发布 "
              ++ toString (todaySuccessCount tasks accountId todayStart)
              ++ " 篇，达到上限 " ++ toString (effectiveDailyLimit account cfg)))
    ∧ ((cfg.ACTIVE_TIME_START ≤ nowHour ∧ nowHour < cfg.ACTIVE_TIME_END) →
        todaySuccessCount tasks accountId todayStart
            < effectiveDailyLimit account cfg →
        ∀ lp, lastPublishTime tasks accountId = some lp →
          now - lp < cfg.MIN_PUBLISH_INTERVAL →
          checkRateLimit cfg now nowHour todayStart (some account) accountId
              tasks
            = (false, "需要等待 "
                ++ toString ⌊cfg.MIN_PUBLISH_INTERVAL - (now - lp)⌋
                ++ " 秒后才能发布")) := by
  cases hlp : lastPublishTime tasks accountId with
  | none =>
    refine ⟨?_, ?_, ?_, fun _ _ lp h => Option.noConfusion h⟩
    · unfold checkRateLimit
      rw [hlp]
      dsimp only
      by_cases hw : cfg.ACTIVE_TIME_START ≤ nowHour ∧ nowHour < cfg.ACTIVE_TIME_END
      · by_cases hq : effectiveDailyLimit account cfg
            ≤ todaySuccessCount tasks accountId todayStart
        · rw [if_neg (not_not_intro hw), if_pos hq]
          refine ⟨fun h => Bool.noConfusion h, ?_⟩
          rintro ⟨-, hlt, -⟩
          omega
        · rw [if_neg (not_not_intro hw), if_neg hq]
          exact ⟨fun _ => ⟨hw, lt_of_not_ge hq, fun lp h => Option.noConfusion h⟩,
            fun _ => rfl⟩
      · rw [if_pos hw]
        refine ⟨fun h => Bool.noConfusion h, ?_⟩
        rintro ⟨hwin, -, -⟩
        exact absurd hwin hw
    · intro hnw
      unfold checkRateLimit
      rw [hlp]
      dsimp only
      rw [if_pos hnw]
    · intro hwin hge
      unfold checkRateLimit
      rw [hlp]
      dsimp only
      rw [if_neg (not_not_intro hwin), if_pos hge]
  | some lp0 =>
    refine ⟨?_, ?_, ?_, ?_⟩
    · unfold checkRateLimit
      rw [hlp]
      dsimp only
      by_cases hw : cfg.ACTIVE_TIME_START ≤ nowHour ∧ nowHour < cfg.ACTIVE_TIME_END
      · by_cases hq : effectiveDailyLimit account cfg
            ≤ todaySuccessCount tasks accountId todayStart
        · rw [if_neg (not_not_intro hw), if_pos hq]
          refine ⟨fun h => Bool.noConfusion h, ?_⟩
          rintro ⟨-, hlt, -⟩
          omega
        · by_cases hs : now - lp0 < cfg.MIN_PUBLISH_INTERVAL
          · rw [if_neg (not_not_intro hw), if_neg hq, if_pos hs]
            refine ⟨fun h => Bool.noConfusion h, ?_⟩
            rintro ⟨-, -, hall⟩
            have := hall lp0 rfl
            linarith
          · rw [if_neg (not_not_intro hw), if_neg hq, if_neg hs]
            refine ⟨fun _ => ⟨hw, lt_of_not_ge hq, ?_⟩, fun _ => rfl⟩
            intro lp h
            injection h with h
            subst h
            linarith
      · rw [if_pos hw]
        refine ⟨fun h => Bool.noConfusion h, ?_⟩
        rintro ⟨hwin, -, -⟩
        exact absurd hwin hw
    · intro hnw
      unfold checkRateLimit
      rw [hlp]
      dsimp only
      rw [if_pos hnw]
    · intro hwin hge
      unfold checkRateLimit
      rw [hlp]
      dsimp only
      rw [if_neg (not_not_intro hwin), if_pos hge]
    · intro hwin hlt lp h hs
      injection h with h
      subst h
      unfold checkRateLimit
      rw [hlp]
      dsimp only
      rw [if_neg (not_not_intro hwin), if_neg (not_le.mpr hlt), if_pos hs]

/-- Five `success` tasks for account 1 created today. -/
def fiveSuccessTasks : List Task :=
  [successTaskAt 1 100, successTaskAt 2 200, successTaskAt 3 300,
   successTaskAt 4 400, successTaskAt 5 500]

/-- Four `success` tasks for account 1 created today. -/
def fourSuccessTasks : List Task :=
  [successTaskAt 1 100, successTaskAt 2 200, successTaskAt 3 300,
   successTaskAt 4 400]

/-- Closed witness for `checkRateLimit_spec`: at 10:00
(`now = 36000`, window 8-23, `daily_limit = 5`), five prior successes
deny with the quota reason and four prior successes allow. -/
theorem checkRateLimit_spec_witness :
    checkRateLimit defaultCfg 36000 10 0 (some sampleAccount) 1
        fiveSuccessTasks
      = (false, "今日已发布 5 篇，达到上限 5")
    ∧ (checkRateLimit defaultCfg 36000 10 0 (some sampleAccount) 1
        fourSuccessTasks).1 = true := by
  constructor
  · have h := (checkRateLimit_spec defaultCfg 36000 10 0 sampleAccount 1
      fiveSuccessTasks).2.2.1 (by norm_num [defaultCfg]) (by decide)
    rw [h]
    rfl
  · refine (checkRateLimit_spec defaultCfg 36000 10 0 sampleAccount 1
      fourSuccessTasks).1.mpr ⟨by norm_num [defaultCfg], by decide, ?_⟩
    intro lp hlp
    have he : lastPublishTime fourSuccessTasks 1 = some (400 : ℚ) := by decide
    rw [he] at hlp
    injection hlp with hlp
    subst hlp
    norm_num [defaultCfg]

/-! ### Helper lemmas about `_execute_task` -/

/-- `_execute_task` helper: no-op when the task row is missing. -/
theorem executeTask_task_none (env : ExecEnv) (s : ExecState)
    (h : s.task = none) : executeTask env s = s := by
  unfold executeTask
  rw [h]

/-- `_execute_task` helper: no-op when the status is not `pending`
(lines 307-312). -/
theorem executeTask_not_pending (env : ExecEnv) (s : ExecState) (t : Task)
    (ht : s.task = some t) (h : t.status ≠ Status.pending) :
    executeTask env s = s := by
  unfold executeTask
  rw [ht]
  dsimp only
  rw [if_pos h]

/-- `_execute_task` helper: in-window run whose publisher call returns
`success=False` (lines 429-452). -/
theorem executeTask_pub_fail (env : ExecEnv) (s : ExecState) (t : Task)
    (a : Article) (acc : Account) (msg shot : Option String)
    (ht : s.task = some t) (hp : t.status = Status.pending)
    (ha : s.article = some a) (hacc : s.account = some acc)
    (hact : acc.isActive = true)
    (hwin : env.activeStart ≤ env.nowHour ∧ env.nowHour < env.activeEnd)
    (hpub : env.pub = PubOutcome.fail msg shot) :
    executeTask env s = { s with
      task := some { t with
        status := Status.failed
        retryCount := t.retryCount + 1
        errorMessage := some (msg.getD "未知错误")
        updatedAt := some env.now }
      records := s.records ++
        [{ taskId := t.id
           articleId := t.articleId
           accountId := t.accountId
           publishStatus := "failed"
           zhihuArticleUrl := none
           screenshotPath := shot
           startedAt := some env.now
           finishedAt := some env.now }]
      events := s.events ++
        [⟨"task_update", some "failed", some (t.retryCount + 1)⟩]
      trace := s.trace ++ [Status.running, Status.failed] } := by
  obtain ⟨hw1, hw2⟩ := hwin
  unfold executeTask
  rw [ht, ha, hacc, hpub]
  dsimp only
  rw [if_neg (not_not_intro hp), if_neg (by simp [hact]),
    if_neg (not_not_intro ⟨hw1, hw2⟩)]
  simp

/-- `_execute_task` helper: in-window run whose publisher call raises
(lines 456-475). -/
theorem executeTask_pub_exn (env : ExecEnv) (s : ExecState) (t : Task)
    (a : Article) (acc : Account) (m : String)
    (ht : s.task = some t) (hp : t.status = Status.pending)
    (ha : s.article = some a) (hacc : s.account = some acc)
    (hact : acc.isActive = true)
    (hwin : env.activeStart ≤ env.nowHour ∧ env.nowHour < env.activeEnd)
    (hpub : env.pub = PubOutcome.exn m) :
    executeTask env s = { s with
      task := some { t with
        status := Status.failed
        retryCount := t.retryCount + 1
        errorMessage := some m
        updatedAt := some env.now }
      records := s.records ++
        [{ taskId := t.id
           articleId := t.articleId
           accountId := t.accountId
           publishStatus := "failed"
           zhihuArticleUrl := none
           screenshotPath := none
           startedAt := some env.now
           finishedAt := some env.now }]
      events := s.events ++
        [⟨"task_update", some "failed", some (t.retryCount + 1)⟩]
      trace := s.trace ++ [Status.running, Status.failed] } := by
  obtain ⟨hw1, hw2⟩ := hwin
  unfold executeTask
  rw [ht, ha, hacc, hpub]
  dsimp only
  rw [if_neg (not_not_intro hp), if_neg (by simp [hact]),
    if_neg (not_not_intro ⟨hw1, hw2⟩)]
  simp

/-- `_execute_task` helper: in-window run whose publisher call succeeds
(lines 395-428). -/
theorem executeTask_pub_ok (env : ExecEnv) (s : ExecState) (t : Task)
    (a : Article) (acc : Account) (url shot : Option String)
    (ht : s.task = some t) (hp : t.status = Status.pending)
    (ha : s.article = some a) (hacc : s.account = some acc)
    (hact : acc.isActive = true)
    (hwin : env.activeStart ≤ env.nowHour ∧ env.nowHour < env.activeEnd)
    (hpub : env.pub = PubOutcome.ok url shot) :
    executeTask env s = { s with
      task := some { t with
        status := Status.success
        updatedAt := some env.now }
      article := some { a with status := "published" }
      records := s.records ++
        [{ taskId := t.id
           articleId := t.articleId
           accountId := t.accountId
           publishStatus := "success"
           zhihuArticleUrl := url
           screenshotPath := shot
           startedAt := some env.now
           finishedAt := some env.now }]
      events := s.events ++ [⟨"task_update", some "success", none⟩]
      trace := s.trace ++ [Status.running, Status.success] } := by
  obtain ⟨hw1, hw2⟩ := hwin
  unfold executeTask
  rw [ht, ha, hacc, hpub]
  dsimp only
  rw [if_neg (not_not_intro hp), if_neg (by simp [hact]),
    if_neg (not_not_intro ⟨hw1, hw2⟩)]
  simp

/-- `_execute_task` helper: in-window pending run with an existing,
active account but outside the active-hours window — the task goes from
`running` back to `pending` with a deferred `scheduled_at`
(lines 344-370). -/
theorem executeTask_deferred (env : ExecEnv) (s : ExecState) (t : Task)
    (a : Article) (acc : Account)
    (ht : s.task = some t) (hp : t.status = Status.pending)
    (ha : s.article = some a) (hacc : s.account = some acc)
    (hact : acc.isActive = true)
    (hwin : ¬(env.activeStart ≤ env.nowHour ∧ env.nowHour < env.activeEnd)) :
    executeTask env s = { s with
      task := some { t with
        status := Status.pending
        scheduledAt := some (nextActiveTime env)
        updatedAt := some env.now }
      trace := s.trace ++ [Status.running, Status.pending] } := by
  unfold executeTask
  rw [ht, ha, hacc]
  dsimp only
  rw [if_neg (not_not_intro hp), if_neg (by simp [hact]), if_pos hwin]
  simp

/-- `_execute_task` helper: the statuses one call commits are one of
four shapes — nothing (no-op), `running, failed`, `running, pending`
(active-window deferral) or `running, success`. -/
theorem executeTask_trace_shape (env : ExecEnv) (s : ExecState) :
    (executeTask env s).trace = s.trace
    ∨ (executeTask env s).trace = s.trace ++ [Status.running, Status.failed]
    ∨ (executeTask env s).trace = s.trace ++ [Status.running, Status.pending]
    ∨ (executeTask env s).trace = s.trace ++ [Status.running, Status.success] := by
  rcases hts : s.task with _ | t
  · rw [executeTask_task_none env s hts]
    left
    rfl
  · by_cases hp : t.status = Status.pending
    · rcases hsa : s.article with _ | a
      · unfold executeTask
        rw [hts, hsa]
        dsimp only
        rw [if_neg (not_not_intro hp)]
        right; left
        simp
      · rcases hsacc : s.account with _ | acc
        · unfold executeTask
          rw [hts, hsa, hsacc]
          dsimp only
          rw [if_neg (not_not_intro hp)]
          right; left
          simp
        · by_cases hact : acc.isActive
          · by_cases hw : env.activeStart ≤ env.nowHour
                ∧ env.nowHour < env.activeEnd
            · rcases hpub : env.pub with ⟨url, shot⟩ | ⟨msg, shot⟩ | m
              · rw [executeTask_pub_ok env s t a acc url shot hts hp hsa hsacc
                  hact hw hpub]
                right; right; right
                rfl
              · rw [executeTask_pub_fail env s t a acc msg shot hts hp hsa
                  hsacc hact hw hpub]
                right; left
                rfl
              · rw [executeTask_pub_exn env s t a acc m hts hp hsa hsacc hact
                  hw hpub]
                right; left
                rfl
            · rw [executeTask_deferred env s t a acc hts hp hsa hsacc hact hw]
              right; right; left
              rfl
          · unfold executeTask
            rw [hts, hsa, hsacc]
            dsimp only
            rw [if_neg (not_not_intro hp), if_pos (by simp [hact])]
            right; left
            simp
    · rw [executeTask_not_pending env s t hts hp]
      left
      rfl

/-! ### Concrete environments and states -/

/-- The article referenced by `sampleTask`. -/
def sampleArticle : Article := { id := 3, status := "generated" }

/-- 10:00, inside the 8-23 active window, publisher reports failure. -/
def dayFailEnv : ExecEnv :=
  { now := 36000
    nowHour := 10
    todayStart := 0
    activeStart := 8
    activeEnd := 23
    pub := PubOutcome.fail (some "网络超时") none }

/-- 02:00, outside the 8-23 active window. -/
def nightEnv : ExecEnv :=
  { now := 7200
    nowHour := 2
    todayStart := 0
    activeStart := 8
    activeEnd := 23
    pub := PubOutcome.ok none none }

/-- A pending task with its article and active account present. -/
def goodState : ExecState :=
  { task := some sampleTask
    article := some sampleArticle
    account := some sampleAccount
    records := []
    events := []
    trace := [] }

/-- Same but the referenced article is missing from the database. -/
def noArticleState : ExecState :=
  { task := some sampleTask
    article := none
    account := some sampleAccount
    records := []
    events := []
    trace := [] }

/-! ### C6: execute guard and idempotence -/

/-- C6: `_execute_task` proceeds only when the task exists with status
`pending` — for a missing task or any other status it changes nothing —
and for a pending task with its article and active account present,
inside the active window, running it twice in immediate succession
yields exactly one additional `PublishRecord` and one terminal status:
the second call is a no-op. -/
theorem executeTask_guard_idempotent (env : ExecEnv) (s : ExecState)
    (t : Task) (a : Article) (acc : Account)
    (ht : s.task = some t) (hp : t.status = Status.pending)
    (ha : s.article = some a) (hacc : s.account = some acc)
    (hact : acc.isActive = true)
    (hwin : env.activeStart ≤ env.nowHour ∧ env.nowHour < env.activeEnd) :
    (executeTask env (executeTask env s) = executeTask env s
      ∧ (executeTask env s).records.length = s.records.length + 1
      ∧ ((executeTask env s).task.map Task.status = some Status.success
          ∨ (executeTask env s).task.map Task.status = some Status.failed))
    ∧ (∀ (w : ExecState), w.task = none → executeTask env w = w)
    ∧ (∀ (w : ExecState) (u : Task), w.task = some u →
        u.status ≠ Status.pending → executeTask env w = w) := by
  refine ⟨?_, fun w h => executeTask_task_none env w h,
    fun w u h hn => executeTask_not_pending env w u h hn⟩
  rcases hpub : env.pub with ⟨url, shot⟩ | ⟨msg, shot⟩ | m
  · rw [executeTask_pub_ok env s t a acc url shot ht hp ha hacc hact hwin hpub]
    refine ⟨executeTask_not_pending env _ _ rfl (by simp), by simp, ?_⟩
    left
    rfl
  · rw [executeTask_pub_fail env s t a acc msg shot ht hp ha hacc hact hwin
      hpub]
    refine ⟨executeTask_not_pending env _ _ rfl (by simp), by simp, ?_⟩
    right
    rfl
  · rw [executeTask_pub_exn env s t a acc m ht hp ha hacc hact hwin hpub]
    refine ⟨executeTask_not_pending env _ _ rfl (by simp), by simp, ?_⟩
    right
    rfl

/-- Closed witness for `executeTask_guard_idempotent`: the concrete
in-window failing run on `goodState`. -/
theorem executeTask_guard_idempotent_witness :
    executeTask dayFailEnv (executeTask dayFailEnv goodState)
        = executeTask dayFailEnv goodState
    ∧ (executeTask dayFailEnv goodState).records.length
        = goodState.records.length + 1
    ∧ ((executeTask dayFailEnv goodState).task.map Task.status
          = some Status.success
        ∨ (executeTask dayFailEnv goodState).task.map Task.status
          = some Status.failed) :=
  (executeTask_guard_idempotent dayFailEnv goodState sampleTask sampleArticle
    sampleAccount rfl rfl rfl rfl rfl (by decide)).1

/-! ### C2: effects of a failed execution -/

/-- C2 counterexample: executing the pending `sampleTask` when its
article row is missing ends with the task `failed` yet leaves
`retry_count` at 0 and emits no event — refuting the claim that every
execution ending in `failed` increments `retry_count` and emits a
`task_update` event. -/
theorem executeTask_failed_no_increment_counterexample :
    (executeTask dayFailEnv noArticleState).task.map Task.status
        = some Status.failed
    ∧ (executeTask dayFailEnv noArticleState).task.map Task.retryCount
        = some 0
    ∧ (executeTask dayFailEnv noArticleState).events = [] :=
  ⟨rfl, rfl, rfl⟩

/-- C2 amended: every execution that reaches the publisher call (the
task is pending, article and active account present, inside the active
window) and ends `failed` — publisher returned `success=False` or raised
— increments `retry_count` by exactly one, sets `error_message`, touches
`updated_at`, and emits a `task_update` event with status `failed`
carrying the new retry count.  (The precondition failures — missing
article, missing account, disabled account — set `failed` and
`error_message` without incrementing `retry_count` or emitting an
event.) -/
theorem executeTask_failed_increments (env : ExecEnv) (s : ExecState)
    (t : Task) (a : Article) (acc : Account) (msg shot : Option String)
    (m : String)
    (ht : s.task = some t) (hp : t.status = Status.pending)
    (ha : s.article = some a) (hacc : s.account = some acc)
    (hact : acc.isActive = true)
    (hwin : env.activeStart ≤ env.nowHour ∧ env.nowHour < env.activeEnd)
    (hpub : env.pub = PubOutcome.fail msg shot ∨ env.pub = PubOutcome.exn m) :
    (executeTask env s).task.map Task.status = some Status.failed
    ∧ (executeTask env s).task.map Task.retryCount = some (t.retryCount + 1)
    ∧ (executeTask env s).task.map (fun x => x.errorMessage.isSome)
        = some true
    ∧ (executeTask env s).task.map Task.updatedAt = some (some env.now)
    ∧ (executeTask env s).events
        = s.events ++ [⟨"task_update", some "failed", some (t.retryCount + 1)⟩] := by
  rcases hpub with hpub | hpub
  · rw [executeTask_pub_fail env s t a acc msg shot ht hp ha hacc hact hwin
      hpub]
    exact ⟨rfl, rfl, rfl, rfl, rfl⟩
  · rw [executeTask_pub_exn env s t a acc m ht hp ha hacc hact hwin hpub]
    exact ⟨rfl, rfl, rfl, rfl, rfl⟩

/-- Closed witness for `executeTask_failed_increments`: the concrete
failing run on `goodState`. -/
theorem executeTask_failed_increments_witness :
    (executeTask dayFailEnv goodState).task.map Task.status
        = some Status.failed
    ∧ (executeTask dayFailEnv goodState).task.map Task.retryCount
        = some (sampleTask.retryCount + 1)
    ∧ (executeTask dayFailEnv goodState).task.map
        (fun x => x.errorMessage.isSome) = some true
    ∧ (executeTask dayFailEnv goodState).task.map Task.updatedAt
        = some (some dayFailEnv.now)
    ∧ (executeTask dayFailEnv goodState).events
        = goodState.events
          ++ [⟨"task_update", some "failed", some (sampleTask.retryCount + 1)⟩] :=
  executeTask_failed_increments dayFailEnv goodState sampleTask sampleArticle
    sampleAccount (some "网络超时") none "" rfl rfl rfl rfl rfl (by decide)
    (Or.inl rfl)

/-! ### C1: the task state machine -/

/-- The transition set asserted by the spec's state-machine section,
transcribed from its words for comparison with the code:
`pending→running`, `running→success`, `running→failed`,
`pending→cancelled`, `failed→pending`. -/
def claimedAllowedTrans : Status → Status → Bool
  | Status.pending, Status.running => true
  | Status.running, Status.success => true
  | Status.running, Status.failed => true
  | Status.pending, Status.cancelled => true
  | Status.failed, Status.pending => true
  | _, _ => false

/-- The transition set the code actually implements: additionally
`running→pending`, performed by `_execute_task` when the run is deferred
for being outside the active-hours window (lines 344-370). -/
def amendedAllowedTrans (a b : Status) : Bool :=
  claimedAllowedTrans a b
    || (a == Status.running && b == Status.pending)

/-- C1 counterexample: executing the pending `sampleTask` (article and
active account present) at 02:00 — outside the 8-23 window — commits
`running` and then `pending`, a `running→pending` transition absent from
the claimed transition set; so after `_execute_task` has set `running`,
the next status it sets is not always `success` or `failed`. -/
theorem stateMachine_counterexample :
    sampleTask.status = Status.pending
    ∧ (executeTask nightEnv goodState).trace
        = [Status.running, Status.pending]
    ∧ claimedAllowedTrans Status.running Status.pending = false :=
  ⟨rfl, rfl, rfl⟩

/-- C1 amended: every status `_execute_task` commits follows the
previous one inside the amended transition set (the claimed set plus
`running→pending` deferral); `_execute_task` never touches a task in
`success` or `cancelled`; a cancellation succeeds only from `pending`
and lands in `cancelled`; whenever the retry sweep processes a task
without raising, any change it makes is `failed` to `pending` (a raised
`AttributeError` writes nothing); the update endpoint never changes a
status; and freshly created tasks start `pending`. -/
theorem stateMachine_amended :
    (∀ (env : ExecEnv) (s : ExecState) (t : Task), s.task = some t →
        s.trace = [] →
        List.Chain' (fun a b => amendedAllowedTrans a b = true)
          (t.status :: (executeTask env s).trace))
    ∧ (∀ (env : ExecEnv) (s : ExecState) (t : Task), s.task = some t →
        t.status = Status.success ∨ t.status = Status.cancelled →
        executeTask env s = s)
    ∧ (∀ (now : ℚ) (t : Task) (jobs : List String) (events : List Event)
        (r : CancelOk), cancelTask now (some t) jobs events = Except.ok r →
        t.status = Status.pending ∧ r.task.status = Status.cancelled)
    ∧ (∀ (maxR : ℕ) (now jitter : ℚ) (t t' : Task) (re : Bool),
        retrySweepTask maxR now jitter t = Except.ok (t', re) → t' ≠ t →
        t.status = Status.failed ∧ t'.status = Status.pending)
    ∧ (∀ (now : ℚ) (t : Task) (ns : Option ℚ) (t' : Task),
        updateTask now (some t) ns = Except.ok t' → t'.status = t.status)
    ∧ (∀ (id aid cid : ℕ) (sa : Option ℚ) (c : ℚ),
        (createTask id aid cid sa c).status = Status.pending) := by
  refine ⟨?_, ?_, ?_, ?_, ?_, fun _ _ _ _ _ => rfl⟩
  · intro env s t ht htr
    by_cases hp : t.status = Status.pending
    · rcases executeTask_trace_shape env s with h | h | h | h <;>
        rw [h, htr, hp] <;> simp [List.chain'_cons, amendedAllowedTrans,
          claimedAllowedTrans]
    · rw [executeTask_not_pending env s t ht hp, htr]
      simp
  · intro env s t ht hterm
    refine executeTask_not_pending env s t ht ?_
    rcases hterm with h | h <;> simp [h]
  · intro now t jobs events r h
    unfold cancelTask at h
    dsimp only at h
    by_cases hp : t.status = Status.pending
    · rw [if_neg (not_not_intro hp)] at h
      injection h with h
      subst h
      exact ⟨hp, rfl⟩
    · rw [if_pos hp] at h
      cases h
  · intro maxR now jitter t t' re h hne
    unfold retrySweepTask at h
    by_cases hg : t.status = Status.failed ∧ t.retryCount < maxR
    · rw [if_pos hg] at h
      rcases hu : t.updatedAt with _ | u
      · rw [hu] at h
        exact Except.noConfusion h
      · rw [hu] at h
        dsimp only at h
        by_cases hb : now < calculateNextRetryTime (t.retryCount - 1) u jitter
        · rw [if_pos hb] at h
          injection h with h
          injection h with h1 h2
          exact absurd h1.symm hne
        · rw [if_neg hb] at h
          injection h with h
          injection h with h1 h2
          exact ⟨hg.1, h1 ▸ rfl⟩
    · rw [if_neg hg] at h
      injection h with h
      injection h with h1 h2
      exact absurd h1.symm hne
  · intro now t ns t' h
    unfold updateTask at h
    dsimp only at h
    by_cases hp : t.status = Status.pending
    · rw [if_neg (not_not_intro hp)] at h
      cases ns with
      | none =>
        dsimp only at h
        injection h with h
        subst h
        rfl
      | some v =>
        dsimp only at h
        injection h with h
        subst h
        rfl
    · rw [if_pos hp] at h
      cases h

/-- Closed witness for `stateMachine_amended`: the deferred night-time
run of the pending `sampleTask` stays inside the amended transition
set. -/
theorem stateMachine_amended_witness :
    List.Chain' (fun a b => amendedAllowedTrans a b = true)
      (sampleTask.status :: (executeTask nightEnv goodState).trace) :=
  stateMachine_amended.1 nightEnv goodState sampleTask rfl rfl

end Zhihu
